import Mathlib

/-!
Shallow embedding of the support-ticket analytics platform
(services: classify, rate limiter, distributed lock, sync/history,
ingestion coordinator, analytics aggregation), with theorems checking
the specification's claims against the code.

Conventions of the embedding:
* machine time (`datetime.utcnow()` / `time.time()`) is an integer number
  of seconds supplied explicitly to each operation;
* Python `datetime` values are `Timestamp` records: a wall-clock value
  plus an optional timezone offset (`tzinfo`), since the sync service
  explicitly juggles naive and aware datetimes;
* the document store is a record of lists of documents; Mongo operations
  (`update_one`, `insert_one`, `find_one_and_update`, `update_many`,
  `delete_one`) are modelled as the corresponding list transformations,
  with `modified_count` true only when a matched document actually changed,
  as in MongoDB;
* fallible paths (HTTP failures, unparsable datetime strings) are
  explicit: HTTP responses come from an oracle, and datetime fields of an
  external ticket are `absent`, `valid t`, or `malformed` (a string that
  `dateutil.parser.parse` rejects).
-/

/-- A Python `datetime`: wall-clock seconds plus optional tz offset
(seconds east of UTC).  `tz = none` is a naive datetime. -/
structure Timestamp where
  wall : Int
  tz : Option Int
deriving DecidableEq, Repr

/-- The instant a datetime denotes, for store-level (`$gte`/`$lte`)
comparisons: PyMongo stores datetimes as UTC instants. -/
def Timestamp.utcVal (t : Timestamp) : Int :=
  t.wall - t.tz.getD 0

/-- Python `<=` on two datetimes of equal awareness: naive datetimes
compare by wall clock, aware datetimes by UTC instant. -/
def Timestamp.pyLe (a b : Timestamp) : Bool :=
  match a.tz, b.tz with
  | some x, some y => decide (a.wall - x ≤ b.wall - y)
  | _, _ => decide (a.wall ≤ b.wall)

/-- `t.replace(tzinfo := z)`: keeps the wall clock, swaps the tzinfo. -/
def Timestamp.replaceTz (t : Timestamp) (z : Option Int) : Timestamp :=
  { t with tz := z }

/-- A datetime-valued field of the raw external-API ticket dict:
missing, a parsable value, or a string `dateutil.parser.parse` raises on. -/
inductive DateField where
  | absent
  | valid (t : Timestamp)
  | malformed
deriving DecidableEq, Repr

/-- Python truthiness of the raw field (`None` is falsy; a datetime or a
non-empty string is truthy). -/
def DateField.truthy : DateField → Bool
  | .absent => false
  | _ => true

/-- A raw ticket dict as returned by the external API
(`ticket_data.get(...)` yields `none` for missing keys). -/
structure ExtTicket where
  id : String
  source : Option String
  customer_id : Option String
  subject : Option String
  message : Option String
  status : Option String
  created_at : DateField
  updated_at : DateField
deriving DecidableEq, Repr

/- ## Classifier (src/services/classify_service.py) -/

def high_urgency_keywords : List String :=
  ["urgent", "critical", "emergency", "asap", "immediately",
   "lawsuit", "legal", "lawyer", "attorney", "court",
   "refund", "chargeback", "fraud", "security breach",
   "data breach", "gdpr", "compliance", "violation",
   "outage", "down", "not working", "broken", "crashed"]

def medium_urgency_keywords : List String :=
  ["issue", "problem", "error", "bug", "concern",
   "complaint", "unhappy", "dissatisfied", "disappointed"]

def negative_keywords : List String :=
  ["angry", "frustrated", "terrible", "awful", "horrible",
   "worst", "hate", "useless", "broken", "disappointed",
   "unacceptable", "poor", "bad", "annoyed", "upset"]

def positive_keywords : List String :=
  ["thank", "thanks", "appreciate", "great", "excellent",
   "good", "happy", "satisfied", "wonderful", "love"]

def action_required_keywords : List String :=
  ["refund", "cancel", "delete", "remove", "fix",
   "help", "urgent", "asap", "immediately",
   "lawsuit", "legal", "gdpr", "compliance",
   "broken", "not working", "error", "issue"]

/-- `needle` occurs as a contiguous run of `haystack`. -/
def charsIn (needle : List Char) : List Char → Bool
  | [] => needle.isPrefixOf []
  | c :: rest => needle.isPrefixOf (c :: rest) || charsIn needle rest

/-- Python `needle in haystack` for strings: substring containment. -/
def strIn (needle haystack : String) : Bool :=
  charsIn needle.toList haystack.toList

/-- Python `str.lower()` (the keyword sets are ASCII): lower every
character, i.e. `String.map Char.toLower` written over the character
list. -/
def pyLower (s : String) : String :=
  ⟨s.toList.map Char.toLower⟩

structure Classification where
  urgency : String
  sentiment : String
  requires_action : Bool
deriving DecidableEq, Repr

/-- `ClassifyService.classify(message, subject)`. -/
def classify (message subject : String) : Classification :=
  let text := pyLower (subject ++ " " ++ message)
  let urgency :=
    if high_urgency_keywords.any (fun kw => strIn kw text) then "high"
    else if medium_urgency_keywords.any (fun kw => strIn kw text) then "medium"
    else "low"
  let sentiment :=
    if negative_keywords.any (fun kw => strIn kw text) then "negative"
    else if positive_keywords.any (fun kw => strIn kw text) then "positive"
    else "neutral"
  let requires_action := action_required_keywords.any (fun kw => strIn kw text)
  { urgency := urgency, sentiment := sentiment, requires_action := requires_action }

/- ## Rate limiter (src/services/rate_limiter.py, class RateLimiter)

`request_times` is the deque, front first.  The limiter default is
`requests_per_minute = 60`, `window_seconds = 60`. -/

def rl_requests_per_minute : Nat := 60
def rl_window_seconds : Int := 60

/-- The eviction loop of `acquire`/`get_status`: pop timestamps older
than `now − window` off the front of the deque. -/
def rlEvict (request_times : List Int) (now : Int) : List Int :=
  request_times.dropWhile (fun t => now - t > rl_window_seconds)

/-- `RateLimiter.acquire` at time `now`: evict, then admit or compute the
wait.  Returns `(wait, new_request_times)`. -/
def rlAcquire (request_times : List Int) (now : Int) : Int × List Int :=
  let times := rlEvict request_times now
  if times.length < rl_requests_per_minute then
    (0, times ++ [now])
  else
    match times with
    -- unreachable: `times.length < 60` is false, so `times` is non-empty
    | [] => (0, times)
    | oldest :: _ => (max 0 (rl_window_seconds - (now - oldest)), times)

/- ## Distributed lock (src/services/lock_service.py)

The `distributed_locks` collection, front = insertion order.  The
repository keeps a unique index on `resource_id`; the model nevertheless
works over arbitrary lists, matching the first document as Mongo's
`find_one_and_update` / `update_one` do. -/

def LOCK_TTL_SECONDS : Int := 60

structure LockDoc where
  resource_id : String
  owner_id : String
  acquired_at : Int
  expires_at : Int
deriving DecidableEq, Repr

/-- Replace the first element satisfying `p` by `f` of it. -/
def updateFirst {α : Type} (p : α → Bool) (f : α → α) : List α → List α
  | [] => []
  | x :: xs => if p x then f x :: xs else x :: updateFirst p f xs

/-- `LockService.acquire_lock`: steal an expired lock atomically, else
insert; a duplicate-key rejection means a live lock exists.  Returns
`(acquired, locks)`. -/
def acquireLock (locks : List LockDoc) (resource_id owner_id : String)
    (now : Int) : Bool × List LockDoc :=
  let expires_at := now + LOCK_TTL_SECONDS
  -- Strategy 1: find_one_and_update {resource_id, expires_at < now}
  match locks.find? (fun l => l.resource_id == resource_id && decide (l.expires_at < now)) with
  | some _ =>
      (true,
       updateFirst (fun l => l.resource_id == resource_id && decide (l.expires_at < now))
         (fun l => { l with owner_id := owner_id, acquired_at := now,
                            expires_at := expires_at }) locks)
  | none =>
      -- Strategy 2: insert_one; the unique index on resource_id rejects
      -- a duplicate, which the code maps to `False`
      if locks.any (fun l => l.resource_id == resource_id) then
        (false, locks)
      else
        (true, locks ++ [{ resource_id := resource_id, owner_id := owner_id,
                           acquired_at := now, expires_at := expires_at }])

/-- `LockService.release_lock`: `delete_one {resource_id, owner_id}`;
true iff a document was removed. -/
def releaseLock (locks : List LockDoc) (resource_id owner_id : String) :
    Bool × List LockDoc :=
  let p := fun (l : LockDoc) => l.resource_id == resource_id && l.owner_id == owner_id
  match locks.find? p with
  | some _ =>
      (true, (locks.takeWhile (fun l => !(p l))) ++
             ((locks.dropWhile (fun l => !(p l))).drop 1))
  | none => (false, locks)

/-- `LockService.refresh_lock`: `update_one {resource_id, owner_id}`
setting `expires_at = now + TTL`; returns `modified_count > 0`, and
`update_one` counts a document as modified only when the `$set` changed
it. -/
def refreshLock (locks : List LockDoc) (resource_id owner_id : String)
    (now : Int) : Bool × List LockDoc :=
  let expires_at := now + LOCK_TTL_SECONDS
  let p := fun (l : LockDoc) => l.resource_id == resource_id && l.owner_id == owner_id
  match locks.find? p with
  | some l =>
      (decide (l.expires_at ≠ expires_at),
       updateFirst p (fun l => { l with expires_at := expires_at }) locks)
  | none => (false, locks)

/- ## Store documents -/

/-- A document of the `tickets` collection, as assembled by the
coordinator's upsert (its `$set` document has exactly the twelve
non-`deleted_at` fields below). -/
structure TicketDoc where
  external_id : String
  tenant_id : String
  source : String
  customer_id : String
  subject : String
  message : String
  created_at : Option Timestamp
  updated_at : Option Timestamp
  status : String
  urgency : String
  sentiment : String
  requires_action : Bool
  deleted_at : Option Timestamp
deriving DecidableEq, Repr

/-- A change-history document (`ticket_history`).  `changes` is the
field → {old, new} map as an association list; `{}` when the action
carries no diff. -/
structure HistoryRec where
  ticket_id : String
  tenant_id : String
  action : String
  changes : List (String × Option String × Option String)
  recorded_at : Int
deriving DecidableEq, Repr

structure JobDoc where
  -- Mongo `_id` of the inserted job document (`insert_one(...).inserted_id`)
  dbId : Nat
  tenant_id : String
  status : String
  started_at : Int
  ended_at : Option Int
  progress : Int
  total_pages : Option Int
  processed_pages : Int
  job_id : String
deriving DecidableEq, Repr

structure LogEntry where
  tenant_id : String
  job_id : String
  status : String
  error : Option String
  started_at : Int
  ended_at : Int
  new_ingested : Nat
  updated : Nat
  errors : Nat
deriving DecidableEq, Repr

/- ## Sync service (src/services/sync_service.py) -/

structure SyncResult where
  action : String
  ticket_id : String
  changes : List String
deriving DecidableEq, Repr

/-- `old_doc.get(field)` on a stored ticket document, for the three
fields `compute_changes` is called with. -/
def TicketDoc.getField (d : TicketDoc) : String → Option String
  | "subject" => some d.subject
  | "message" => some d.message
  | "status" => some d.status
  | _ => none

/-- `new_doc.get(field)` on the raw external dict. -/
def ExtTicket.getField (t : ExtTicket) : String → Option String
  | "subject" => t.subject
  | "message" => t.message
  | "status" => t.status
  | _ => none

/-- `SyncService.compute_changes`: field-level diff, skipping fields
absent on both sides. -/
def computeChanges (old_doc : TicketDoc) (new_doc : ExtTicket)
    (fields : List String) : List (String × Option String × Option String) :=
  fields.foldl (fun changes field =>
    let old_value := old_doc.getField field
    let new_value := new_doc.getField field
    if old_value = none ∧ new_value = none then changes
    else if old_value ≠ new_value then
      changes ++ [(field, old_value, new_value)]
    else changes) []

/-- `SyncService.record_history`: append-only insert into
`ticket_history` (`changes or {}` makes a missing diff empty). -/
def recordHistory (history : List HistoryRec) (ticket_id tenant_id action : String)
    (changes : Option (List (String × Option String × Option String)))
    (now : Int) : List HistoryRec :=
  history ++ [{ ticket_id := ticket_id, tenant_id := tenant_id,
                action := action, changes := changes.getD [],
                recorded_at := now }]

/-- `tickets.find_one({tenant_id, external_id})`. -/
def findTicket (tickets : List TicketDoc) (tenant_id external_id : String) :
    Option TicketDoc :=
  tickets.find? (fun d => d.tenant_id == tenant_id && d.external_id == external_id)

/-- The awareness coercion of `sync_ticket`: give the naive side the
other side's `tzinfo` (via `replace`) before comparing.  First component
is the external timestamp, second the stored one. -/
def syncCoerce (ext exi : Timestamp) : Timestamp × Timestamp :=
  match ext.tz, exi.tz with
  | some _, none => (ext, exi.replaceTz ext.tz)
  | none, some _ => (ext.replaceTz exi.tz, exi)
  | _, _ => (ext, exi)

/-- `SyncService.sync_ticket`.  Returns the sync result (or an
exception, raised by `dateutil.parser.parse` on a malformed
`updated_at`) together with the history collection after the call. -/
def syncTicket (tickets : List TicketDoc) (history : List HistoryRec)
    (external_ticket : ExtTicket) (tenant_id : String) (now : Int) :
    Except String SyncResult × List HistoryRec :=
  let external_id := external_ticket.id
  match findTicket tickets tenant_id external_id with
  | none =>
      (Except.ok { action := "created", ticket_id := external_id, changes := [] },
       history)
  | some existing =>
      -- compare updated_at when both sides carry a truthy value
      let cmp : Except String (Option Bool) :=
        match external_ticket.updated_at, existing.updated_at with
        | .malformed, some _ => Except.error "dateutil parse error"
        | .valid ext, some exi =>
            -- coerce to equal awareness, then Python `<=`
            let pair := syncCoerce ext exi
            Except.ok (some (pair.1.pyLe pair.2))
        | _, _ => Except.ok none
      match cmp with
      | Except.error e => (Except.error e, history)
      | Except.ok (some true) =>
          (Except.ok { action := "unchanged", ticket_id := external_id, changes := [] },
           history)
      | Except.ok _ =>
          let changes_dict :=
            computeChanges existing external_ticket ["subject", "message", "status"]
          if changes_dict ≠ [] then
            (Except.ok { action := "updated", ticket_id := external_id,
                         changes := changes_dict.map (fun c => c.1) },
             recordHistory history external_id tenant_id "updated"
               (some changes_dict) now)
          else
            (Except.ok { action := "unchanged", ticket_id := external_id, changes := [] },
             history)

/-- `SyncService.mark_deleted`: `update_many` stamping `deleted_at = now`
on not-yet-deleted matches, then one "deleted" history record per id of
the argument list; returns the store's `modified_count`. -/
def markDeleted (tickets : List TicketDoc) (history : List HistoryRec)
    (tenant_id : String) (external_ids : List String) (now : Int) :
    Nat × List TicketDoc × List HistoryRec :=
  if external_ids = [] then
    (0, tickets, history)
  else
    let isMatch := fun (d : TicketDoc) =>
      d.tenant_id == tenant_id && external_ids.contains d.external_id &&
        d.deleted_at == none
    let modified := (tickets.filter isMatch).length
    let tickets' := tickets.map (fun d =>
      if isMatch d then { d with deleted_at := some ⟨now, none⟩ } else d)
    let history' := external_ids.foldl (fun h external_id =>
      recordHistory h external_id tenant_id "deleted" none now) history
    (modified, tickets', history')

/-- `SyncService.detect_deleted_tickets`: external ids of this tenant's
not-deleted tickets missing from the observed list. -/
def detectDeletedTickets (tickets : List TicketDoc) (tenant_id : String)
    (external_ids : List String) : List String :=
  (tickets.filter (fun d =>
    d.tenant_id == tenant_id && !(external_ids.contains d.external_id) &&
      d.deleted_at == none)).map (fun d => d.external_id)

/- ## Ingestion coordinator (src/services/ingest_service.py) -/

/-- One page payload of the external API after `response.json()`:
`tickets` and `pagination.total_pages` (`.get` dicts, so the latter is
optional and defaults to 1). -/
structure PageData where
  tickets : List ExtTicket
  total_pages : Option Int
deriving DecidableEq, Repr

/-- Outcome of one HTTP request to the external API: a response with a
status code, optional parsed `Retry-After` header and decoded JSON body
(`none` models a JSON `null` body), or a transport error. -/
inductive HttpOutcome where
  | resp (code : Nat) (retry_after : Option Nat) (body : Option PageData)
  | netErr (msg : String)
deriving DecidableEq, Repr

/-- `IngestService._fetch_page_with_retry`, unrolled over the attempt
list `[0, 1, 2]` (`for attempt in range(max_retries)`); `rs attempt` is
the response to the request of that attempt.  Returns the result — body
on 2xx, `none` when the loop exhausts its attempts, or the propagated
exception — together with the trace of `asyncio.sleep` durations. -/
def fetchAttempts (rs : Nat → HttpOutcome) :
    List Nat → Except String (Option PageData) × List Int
  | [] => (Except.ok none, [])
  | attempt :: rest =>
      match rs attempt with
      | .netErr m =>
          if rest = [] then (Except.error m, [])
          else
            let r := fetchAttempts rs rest
            (r.1, (2 : Int) ^ attempt :: r.2)
      | .resp code retry_after body =>
          if code = 429 then
            -- sleep Retry-After (default 60) and `continue`
            let r := fetchAttempts rs rest
            (r.1, ((retry_after.getD 60 : Nat) : Int) :: r.2)
          else if 200 ≤ code ∧ code < 300 then
            (Except.ok body, [])
          else
            -- raise_for_status → HTTPStatusError; its inner
            -- `status_code == 429` branch is unreachable (handled above)
            if rest = [] then (Except.error ("HTTP " ++ toString code), [])
            else
              let r := fetchAttempts rs rest
              (r.1, (2 : Int) ^ attempt :: r.2)

def fetchPageWithRetry (rs : Nat → HttpOutcome) :
    Except String (Option PageData) × List Int :=
  fetchAttempts rs [0, 1, 2]

/-- Whole-system state threaded through the coordinator: the five store
collections, the in-process cancellation-flag map, the scheduled
notifications, the store's `_id` counter for job documents, and the
clock. -/
structure SysState where
  now : Int
  tickets : List TicketDoc
  jobs : List JobDoc
  logs : List LogEntry
  locks : List LockDoc
  history : List HistoryRec
  flags : List (String × Bool)
  notifications : List (String × String)
  nextJobDbId : Nat
deriving DecidableEq, Repr

/-- `self._cancellation_flags.get(job_id, False)`. -/
def getFlag (flags : List (String × Bool)) (k : String) : Bool :=
  match flags.find? (fun p => p.1 == k) with
  | some p => p.2
  | none => false

/-- `self._cancellation_flags[k] = v`. -/
def setFlag (flags : List (String × Bool)) (k : String) (v : Bool) :
    List (String × Bool) :=
  if flags.any (fun p => p.1 == k) then
    updateFirst (fun p => p.1 == k) (fun _ => (k, v)) flags
  else flags ++ [(k, v)]

/-- `self._cancellation_flags.pop(k, None)`. -/
def popFlag (flags : List (String × Bool)) (k : String) : List (String × Bool) :=
  flags.filter (fun p => p.1 != k)

/-- The coordinator's idempotent upsert
(`tickets.update_one({tenant_id, external_id}, {"$set": ticket_doc},
upsert=True)`).  The `$set` document holds exactly the non-`deleted_at`
fields of `doc`, so a matched document keeps its `deleted_at`; a fresh
insert has no `deleted_at`.  Returns `((upserted, modified), tickets)`;
Mongo reports `modified_count = 1` only when the `$set` changed the
document. -/
def upsertTicket (tickets : List TicketDoc) (tenant_id external_id : String)
    (doc : TicketDoc) : (Bool × Bool) × List TicketDoc :=
  let p := fun (d : TicketDoc) => d.tenant_id == tenant_id && d.external_id == external_id
  match tickets.find? p with
  | some existing =>
      let newDoc := { doc with deleted_at := existing.deleted_at }
      ((false, decide (newDoc ≠ existing)), updateFirst p (fun _ => newDoc) tickets)
  | none =>
      ((true, false), tickets ++ [{ doc with deleted_at := none }])

/-- `dateutil.parser.parse` applied to a raw datetime field when it is a
string; `None` stays `None`. -/
def parseDateField : DateField → Except String (Option Timestamp)
  | .absent => Except.ok none
  | .valid t => Except.ok (some t)
  | .malformed => Except.error "dateutil parse error"

structure Counters where
  new_ingested : Nat
  updated : Nat
  errors : Nat
deriving DecidableEq, Repr

/-- The per-ticket `try` body of the page loop: sync, classify, parse
dates, upsert, bump counters, record "created" history, schedule the
high-urgency notification.  Any raise inside is caught by the
coordinator and counted in `errors` (state written before the raise
persists). -/
def processTicket (st : SysState) (tenant_id : String) (cnt : Counters)
    (t : ExtTicket) : SysState × Counters :=
  let sync := syncTicket st.tickets st.history t tenant_id st.now
  let st := { st with history := sync.2 }
  match sync.1 with
  | Except.error _ => (st, { cnt with errors := cnt.errors + 1 })
  | Except.ok _ =>
      -- sync_result is computed but otherwise unused by the coordinator
      let classification := classify (t.message.getD "") (t.subject.getD "")
      match parseDateField t.created_at, parseDateField t.updated_at with
      | Except.ok created_at, Except.ok updated_at =>
          let ticket_doc : TicketDoc :=
            { external_id := t.id
              tenant_id := tenant_id
              source := t.source.getD ""
              customer_id := t.customer_id.getD ""
              subject := t.subject.getD ""
              message := t.message.getD ""
              created_at := created_at
              updated_at := updated_at
              status := t.status.getD ""
              urgency := classification.urgency
              sentiment := classification.sentiment
              requires_action := classification.requires_action
              deleted_at := none }
          let res := upsertTicket st.tickets tenant_id t.id ticket_doc
          let st := { st with tickets := res.2 }
          -- if upserted: count new_ingested and record "created" history;
          -- elif modified: count updated
          let st :=
            if res.1.1 then
              { st with history := recordHistory st.history t.id tenant_id
                          "created" none st.now }
            else st
          let cnt :=
            if res.1.1 then { cnt with new_ingested := cnt.new_ingested + 1 }
            else if res.1.2 then { cnt with updated := cnt.updated + 1 }
            else cnt
          let st :=
            if classification.urgency == "high" then
              { st with notifications := st.notifications ++ [(t.id, tenant_id)] }
            else st
          (st, cnt)
      | _, _ => (st, { cnt with errors := cnt.errors + 1 })

/-- How the `while True` page loop ended: a `break` (cancellation, empty
page, or last page) or an uncaught exception from the page fetch. -/
inductive LoopExit where
  | finished
  | raisedE (msg : String)
deriving DecidableEq, Repr

/-- The body of one iteration of the page loop once a page arrived:
update the job's progress fields, then run every ticket of the page
through the per-ticket processing, accumulating the observed external
ids. -/
def processPage (tenant_id : String) (job_db_id : Nat) (page : Nat)
    (page_data : PageData) (st : SysState) (cnt : Counters)
    (ids : List String) : SysState × Counters × List String :=
  let total_pages := page_data.total_pages.getD 1
  let progress : Int :=
    if total_pages > 0 then ((page : Int) * 100).tdiv total_pages else 0
  let jobs' := updateFirst (fun (j : JobDoc) => j.dbId == job_db_id)
    (fun j => { j with total_pages := some total_pages,
                       processed_pages := (page : Int),
                       progress := progress }) st.jobs
  let st := { st with jobs := jobs' }
  page_data.tickets.foldl
    (fun (acc : SysState × Counters × List String) t =>
      let r := processTicket acc.1 tenant_id acc.2.1 t
      (r.1, r.2, acc.2.2 ++ [t.id]))
    (st, cnt, ids)

/-- The `while True` page loop of `run_ingestion`, by fuel (the source
loops unboundedly; fuel exhaustion is modelled as a break).  `http page
attempt` is the response to the `attempt`-th request for `page`.  The
`rate_limiter.wait_and_acquire()` call only delays; the limiter is a
process singleton modelled separately (`rlAcquire`). -/
def ingestLoop (http : Nat → Nat → HttpOutcome) (tenant_id job_id : String)
    (job_db_id : Nat) :
    Nat → Nat → SysState → Counters → List String →
    LoopExit × SysState × Counters × List String
  | 0, _, st, cnt, ids => (LoopExit.finished, st, cnt, ids)
  | fuel + 1, page, st, cnt, ids =>
      if getFlag st.flags job_id then (LoopExit.finished, st, cnt, ids)
      else
        match (fetchPageWithRetry (http page)).1 with
        | Except.error e => (LoopExit.raisedE e, st, cnt, ids)
        | Except.ok none => (LoopExit.finished, st, cnt, ids)
        | Except.ok (some page_data) =>
            let folded := processPage tenant_id job_db_id page page_data st cnt ids
            let st := folded.1
            let cnt := folded.2.1
            let ids := folded.2.2
            if (page : Int) ≥ page_data.total_pages.getD 1 then
              (LoopExit.finished, st, cnt, ids)
            else
              let page' := page + 1
              let st :=
                if page' % 5 = 0 then
                  { st with locks :=
                    (refreshLock st.locks ("ingest:" ++ tenant_id) job_id st.now).2 }
                else st
              ingestLoop http tenant_id job_id job_db_id fuel page' st cnt ids

/-- The `finally` of `run_ingestion`: release the lock, drop the
cancellation flag. -/
def finallyBlock (st : SysState) (tenant_id job_id : String) : SysState :=
  { st with
    locks := (releaseLock st.locks ("ingest:" ++ tenant_id) job_id).2,
    flags := popFlag st.flags job_id }

structure IngestResult where
  status : String
  job_id : String
  new_ingested : Nat
  updated : Nat
  errors : Nat
deriving DecidableEq, Repr

/-- A `run_ingestion` call either returns a result dict or rethrows an
exception (after its `except` and `finally` blocks ran). -/
inductive RunOutcome where
  | ok (r : IngestResult)
  | raised (msg : String)
deriving DecidableEq, Repr

/-- `run_ingestion` from the job insert on: job record, cancellation
flag, page loop, deletion reconciliation, terminal job update, audit
log, `except` handler, `finally`. -/
def runIngestionBody (http : Nat → Nat → HttpOutcome) (fuel : Nat)
    (tenant_id job_id : String) (st : SysState) : RunOutcome × SysState :=
  let started_at := st.now
  let job_db_id := st.nextJobDbId
  let job_doc : JobDoc :=
    { dbId := job_db_id, tenant_id := tenant_id, status := "running",
      started_at := started_at, ended_at := none, progress := 0,
      total_pages := none, processed_pages := 0, job_id := job_id }
  let st := { st with jobs := st.jobs ++ [job_doc], nextJobDbId := job_db_id + 1 }
  let st := { st with flags := setFlag st.flags job_id false }
  let r := ingestLoop http tenant_id job_id job_db_id fuel 1 st
    { new_ingested := 0, updated := 0, errors := 0 } []
  let st := r.2.1
  let cnt := r.2.2.1
  let ids := r.2.2.2
  match r.1 with
  | LoopExit.raisedE e =>
      -- except Exception: FAILED audit entry, job → failed, re-raise
      let entry : LogEntry :=
        { tenant_id := tenant_id, job_id := job_id, status := "failed",
          error := some e, started_at := started_at, ended_at := st.now,
          new_ingested := cnt.new_ingested, updated := cnt.updated,
          errors := cnt.errors }
      let st := { st with logs := st.logs ++ [entry] }
      let jobs' := updateFirst (fun (j : JobDoc) => j.dbId == job_db_id)
        (fun j => { j with status := "failed", ended_at := some st.now }) st.jobs
      let st := { st with jobs := jobs' }
      (RunOutcome.raised e, finallyBlock st tenant_id job_id)
  | LoopExit.finished =>
      let deleted_ids := detectDeletedTickets st.tickets tenant_id ids
      let st :=
        if deleted_ids ≠ [] then
          let m := markDeleted st.tickets st.history tenant_id deleted_ids st.now
          { st with tickets := m.2.1, history := m.2.2 }
        else st
      let final_status := if getFlag st.flags job_id then "cancelled" else "completed"
      let jobs' := updateFirst (fun (j : JobDoc) => j.dbId == job_db_id)
        (fun j => { j with status := final_status, ended_at := some st.now }) st.jobs
      let st := { st with jobs := jobs' }
      let log_status :=
        if cnt.errors > 0 then "PARTIAL_SUCCESS"
        else if final_status = "failed" then "FAILED"
        else "SUCCESS"
      let entry : LogEntry :=
        { tenant_id := tenant_id, job_id := job_id, status := log_status,
          error := none, started_at := started_at, ended_at := st.now,
          new_ingested := cnt.new_ingested, updated := cnt.updated,
          errors := cnt.errors }
      let st := { st with logs := st.logs ++ [entry] }
      (RunOutcome.ok { status := final_status, job_id := job_id,
                       new_ingested := cnt.new_ingested, updated := cnt.updated,
                       errors := cnt.errors },
       finallyBlock st tenant_id job_id)

/-- `IngestService.run_ingestion(tenant_id)` with the generated `job_id`
passed explicitly.  On lock failure with a visible running job it
returns early (`already_running`, before the `try`, so no `finally`);
with no visible running job the code falls through and runs the
ingestion anyway. -/
def runIngestion (http : Nat → Nat → HttpOutcome) (fuel : Nat)
    (tenant_id job_id : String) (st : SysState) : RunOutcome × SysState :=
  let a := acquireLock st.locks ("ingest:" ++ tenant_id) job_id st.now
  let lock_acquired := a.1
  let st := { st with locks := a.2 }
  if lock_acquired then runIngestionBody http fuel tenant_id job_id st
  else
    match st.jobs.find? (fun j => j.tenant_id == tenant_id && j.status == "running") with
    | some existing_job =>
        (RunOutcome.ok { status := "already_running",
                         job_id := toString existing_job.dbId,
                         new_ingested := 0, updated := 0, errors := 0 }, st)
    | none =>
        -- no `return` here in the source: the run proceeds without the lock
        runIngestionBody http fuel tenant_id job_id st

/- ## Analytics aggregation (src/services/analytics_service.py) -/

/-- Python `round(x, 3)` on an exact value: round half to even at the
third decimal. -/
def pyRound3 (q : ℚ) : ℚ :=
  let x := q * 1000
  let f : ℤ := ⌊x⌋
  let r : ℚ := x - (f : ℚ)
  let n : ℤ :=
    if r < 1/2 then f
    else if r > 1/2 then f + 1
    else if f % 2 = 0 then f else f + 1
  (n : ℚ) / 1000

/-- A `$group { _id, count: { $sum: 1 } }` over a key list, keyed by
first occurrence. -/
def groupCounts (l : List String) : List (String × Nat) :=
  l.foldl (fun acc x =>
    if acc.any (fun p => p.1 == x) then
      updateFirst (fun p => p.1 == x) (fun p => (p.1, p.2 + 1)) acc
    else acc ++ [(x, 1)]) []

def analytics_stop_words : List String :=
  ["the", "a", "an", "and", "or", "but", "in", "on", "at", "to",
   "for", "of", "with", "is", "are", "was", "were", ""]

/-- The keyword facet's token test: not a stop word and matching
`^[a-z]{4,}$`. -/
def keywordOk (w : String) : Bool :=
  !(analytics_stop_words.contains w) &&
    decide (4 ≤ w.length) && w.toList.all (fun c => 'a' ≤ c && c ≤ 'z')

/-- The `at_risk` facet's `$group`: per customer, the count of (high
urgency) tickets and the `$push`ed external ids, keyed by first
occurrence. -/
structure AtRiskEntry where
  customer_id : String
  high_urgency_count : Nat
  ticket_ids : List String
deriving DecidableEq, Repr

def groupAtRisk (docs : List TicketDoc) : List AtRiskEntry :=
  docs.foldl (fun acc d =>
    if acc.any (fun e => e.customer_id == d.customer_id) then
      updateFirst (fun e => e.customer_id == d.customer_id)
        (fun e => { e with high_urgency_count := e.high_urgency_count + 1,
                           ticket_ids := e.ticket_ids ++ [d.external_id] }) acc
    else acc ++ [{ customer_id := d.customer_id, high_urgency_count := 1,
                   ticket_ids := [d.external_id] }]) []

/-- The aggregation's `$match` stage: tenant, not soft-deleted,
`created_at` in `[from_date, to_date]` (instants, as stored). -/
def statsMatch (tenant_id : String) (from_date to_date : Timestamp)
    (d : TicketDoc) : Bool :=
  d.tenant_id == tenant_id && d.deleted_at == none &&
    (match d.created_at with
     | some t => decide (from_date.utcVal ≤ t.utcVal) &&
                 decide (t.utcVal ≤ to_date.utcVal)
     | none => false)

/-- The shape `get_tenant_stats` returns after Python post-processing of
the facet results.  The hourly buckets carry the hour as
`⌊instant / 3600⌋`; the `$dateToString "%Y-%m-%d %H:00:00"` key is a
faithful rendering of that bucket, and the `$sort {_id: 1}` on those
strings coincides with the numeric bucket order. -/
structure TenantStats where
  total_tickets : Nat
  by_status : List (String × Nat)
  urgency_high_ratio : ℚ
  negative_sentiment_ratio : ℚ
  hourly_trend : List (Int × Nat)
  top_keywords : List String
  at_risk_customers : List AtRiskEntry
deriving DecidableEq, Repr

/-- The stream entering the `$facet` stage: the tickets passing the
`$match` filter. -/
def statsDocs (tickets : List TicketDoc) (tenant_id : String)
    (from_date to_date : Timestamp) : List TicketDoc :=
  tickets.filter (statsMatch tenant_id from_date to_date)

/-- The pre-rounding value of `urgency_high_ratio` (the facet count of
`_id = "high"` over the total, 0 when the total is 0). -/
def urgencyHighRatioRaw (tickets : List TicketDoc) (tenant_id : String)
    (from_date to_date : Timestamp) : ℚ :=
  let docs := statsDocs tickets tenant_id from_date to_date
  let urgency_stats := groupCounts (docs.map (fun d => d.urgency))
  let c := urgency_stats.foldl (fun acc item => if item.1 == "high" then item.2 else acc) 0
  if docs.length > 0 then (c : ℚ) / (docs.length : ℚ) else 0

/-- The pre-rounding value of `negative_sentiment_ratio`. -/
def negativeSentimentRatioRaw (tickets : List TicketDoc) (tenant_id : String)
    (from_date to_date : Timestamp) : ℚ :=
  let docs := statsDocs tickets tenant_id from_date to_date
  let sentiment_stats := groupCounts (docs.map (fun d => d.sentiment))
  let c := sentiment_stats.foldl (fun acc item => if item.1 == "negative" then item.2 else acc) 0
  if docs.length > 0 then (c : ℚ) / (docs.length : ℚ) else 0

/-- `AnalyticsService.get_tenant_stats` (defaults `to_date = now`,
`from_date = to_date − 60d` are applied by the caller of the model).
A `$facet` stage always yields one result document, so the
`if not results` fallback of the source is unreachable. -/
def getTenantStats (tickets : List TicketDoc) (tenant_id : String)
    (from_date to_date : Timestamp) (now : Int) : TenantStats :=
  let docs := statsDocs tickets tenant_id from_date to_date
  -- "total" facet: `$count` emits nothing on an empty stream
  let total_count := docs.length
  let by_status := groupCounts (docs.map (fun d => d.status))
  let urgency_high_ratio : ℚ :=
    urgencyHighRatioRaw tickets tenant_id from_date to_date
  let negative_sentiment_ratio : ℚ :=
    negativeSentimentRatioRaw tickets tenant_id from_date to_date
  let hourly_docs := docs.filter (fun d =>
    match d.created_at with
    | some t => decide (now - 24 * 3600 ≤ t.utcVal)
    | none => false)
  let hourly_buckets := hourly_docs.foldl
    (fun (acc : List (Int × Nat)) d =>
      let bucket := (d.created_at.map (fun t => t.utcVal.fdiv 3600)).getD 0
      if acc.any (fun p => p.1 == bucket) then
        updateFirst (fun p => p.1 == bucket) (fun p => (p.1, p.2 + 1)) acc
      else acc ++ [(bucket, 1)]) []
  let hourly_trend :=
    (hourly_buckets.mergeSort (fun a b => a.1 ≤ b.1)).take 24
  let words := docs.flatMap (fun d => (pyLower d.message).splitOn " ")
  let keywords :=
    (((groupCounts (words.filter keywordOk)).mergeSort
        (fun a b => b.2 ≤ a.2)).take 10).map (fun p => p.1)
  let at_risk :=
    ((groupAtRisk (docs.filter (fun d => d.urgency == "high"))).filter
        (fun e => 2 ≤ e.high_urgency_count)).mergeSort
      (fun a b => b.high_urgency_count ≤ a.high_urgency_count)
  { total_tickets := total_count
    by_status := by_status
    urgency_high_ratio := pyRound3 urgency_high_ratio
    negative_sentiment_ratio := pyRound3 negative_sentiment_ratio
    hourly_trend := hourly_trend
    top_keywords := keywords
    at_risk_customers := at_risk.take 10 }

/-- The literal `_empty_stats` dict. -/
def emptyStats : TenantStats :=
  { total_tickets := 0
    by_status := []
    urgency_high_ratio := 0
    negative_sentiment_ratio := 0
    hourly_trend := []
    top_keywords := []
    at_risk_customers := [] }

/- ## Concrete scenarios used by the claim checks -/

/-- A system state holding a live (unexpired) lock on `ingest:T1` owned
by another process, and no job documents at all. -/
def stForeignLock : SysState :=
  { now := 50, tickets := [], jobs := [], logs := [],
    locks := [{ resource_id := "ingest:T1", owner_id := "other",
                acquired_at := 0, expires_at := 100 }],
    history := [], flags := [], notifications := [], nextJobDbId := 0 }

/-- An external API that always answers one empty single-page response. -/
def httpOnePage : Nat → Nat → HttpOutcome :=
  fun _ _ => HttpOutcome.resp 200 none (some { tickets := [], total_pages := some 1 })

/-- `stForeignLock` with a visible running job for tenant `T1`. -/
def stForeignLockRunning : SysState :=
  { stForeignLock with
    jobs := [{ dbId := 7, tenant_id := "T1", status := "running",
               started_at := 1, ended_at := none, progress := 0,
               total_pages := none, processed_pages := 0, job_id := "J0" }] }

/-- The empty system state at time 0. -/
def stEmpty : SysState :=
  { now := 0, tickets := [], jobs := [], logs := [], locks := [],
    history := [], flags := [], notifications := [], nextJobDbId := 0 }

/-- An external API that always answers HTTP 500. -/
def httpAll500 : Nat → Nat → HttpOutcome := fun _ _ => HttpOutcome.resp 500 none none

/-- An external API whose first three responses are HTTP 429 with
`Retry-After: 2`, followed by a successful page. -/
def http429x3 : Nat → HttpOutcome := fun n =>
  if n < 3 then HttpOutcome.resp 429 (some 2) none
  else HttpOutcome.resp 200 none (some { tickets := [], total_pages := some 1 })

/- ## C1 -/

/-- C1: the claim says that whenever `acquire_lock` returns false,
`run_ingestion` returns `already_running` with zero counters, inserts no
job and processes no page.  The code only returns early when it also
finds a job with `status="running"`; with a live foreign lock and no
such job it falls through, inserts a job, processes pages and returns
`completed` — refuting the claim (and with it the mutual-exclusion
corollary).  Here: the lock on `ingest:T1` is held by `other` and
unexpired, so acquisition fails (third conjunct), yet the call returns
`completed` having inserted and completed its own job and written a
`SUCCESS` audit entry. -/
theorem ingest_lock_failure_fall_through :
    (runIngestion httpOnePage 5 "T1" "J1" stForeignLock).1 =
      RunOutcome.ok { status := "completed", job_id := "J1",
                      new_ingested := 0, updated := 0, errors := 0 } ∧
    ((runIngestion httpOnePage 5 "T1" "J1" stForeignLock).2).jobs.map
        (fun j => (j.job_id, j.status)) = [("J1", "completed")] ∧
    (acquireLock stForeignLock.locks ("ingest:" ++ "T1") "J1" stForeignLock.now).1
      = false ∧
    runIngestion httpOnePage 5 "T1" "J1" stForeignLockRunning =
      (RunOutcome.ok { status := "already_running", job_id := "7",
                       new_ingested := 0, updated := 0, errors := 0 },
       stForeignLockRunning) := by
  decide

/- ## C2 -/

/-- C2: the claim says every run writes exactly one audit entry with
status in {SUCCESS, PARTIAL_SUCCESS, FAILED}, the exception path writing
FAILED.  On an uncaught exception (three HTTP 500s on page 1) the code
does write exactly one entry carrying the error string and the counters
— but its status is the lowercase `"failed"`, which is not in the
documented set; the dead `log_status = "FAILED"` branch of the normal
path shows the uppercase spelling was intended. -/
theorem ingest_exception_audit_lowercase_failed :
    (runIngestion httpAll500 5 "T" "J" stEmpty).1 = RunOutcome.raised "HTTP 500" ∧
    ((runIngestion httpAll500 5 "T" "J" stEmpty).2).logs =
      [{ tenant_id := "T", job_id := "J", status := "failed",
         error := some "HTTP 500", started_at := 0, ended_at := 0,
         new_ingested := 0, updated := 0, errors := 0 }] ∧
    ¬ ("failed" ∈ (["SUCCESS", "PARTIAL_SUCCESS", "FAILED"] : List String)) ∧
    ((runIngestion httpAll500 5 "T" "J" stEmpty).2).jobs.map (fun j => j.status)
      = ["failed"] := by
  decide

/- ## C3 -/

/-- C3 (counterexample): the claim says a 429 retry does not count
against the 3-attempt limit and that after a terminal failure no
non-error value is returned.  With three 429 responses the `continue`
still advances `for attempt in range(3)`, the loop exhausts, and the
function returns `None` — the fourth (successful) response is never
requested, and the caller receives a non-error `None` that silently ends
pagination. -/
theorem fetch_429_consumes_attempts :
    fetchPageWithRetry http429x3 = (Except.ok none, [2, 2, 2]) ∧
    http429x3 3 = HttpOutcome.resp 200 none (some { tickets := [], total_pages := some 1 }) ∧
    (Except.ok (none : Option PageData) : Except String (Option PageData)) ≠
      Except.ok (some { tickets := [], total_pages := some 1 }) := by
  refine ⟨rfl, rfl, ?_⟩
  simp

/-- C3 (amended): `_fetch_page_with_retry` makes at most 3 attempts and
its outcome depends only on the first three responses; a 2xx response
returns the decoded body at once; a 429 sleeps `Retry-After` seconds (60
when the header is missing) and retries, *consuming* one of the three
attempts, so three 429s exhaust the loop and return `None` (not an
error); a non-429 non-2xx HTTP response and a network error each back
off `2^attempt` seconds and, on the third such failure, propagate it as
an exception (the HTTP case carrying the final status code); a failed
attempt followed by a 2xx still returns the body. -/
theorem fetch_retry_amended (rs : Nat → HttpOutcome) :
    (∀ rs' : Nat → HttpOutcome, rs' 0 = rs 0 → rs' 1 = rs 1 → rs' 2 = rs 2 →
        fetchPageWithRetry rs' = fetchPageWithRetry rs) ∧
    (∀ code ra body, rs 0 = HttpOutcome.resp code ra body →
        200 ≤ code → code < 300 → fetchPageWithRetry rs = (Except.ok body, [])) ∧
    (∀ ra1 ra2 ra3 b1 b2 b3,
        rs 0 = HttpOutcome.resp 429 ra1 b1 → rs 1 = HttpOutcome.resp 429 ra2 b2 →
        rs 2 = HttpOutcome.resp 429 ra3 b3 →
        fetchPageWithRetry rs =
          (Except.ok none,
           [((ra1.getD 60 : Nat) : Int), ((ra2.getD 60 : Nat) : Int),
            ((ra3.getD 60 : Nat) : Int)])) ∧
    (∀ m1 m2 m3, rs 0 = HttpOutcome.netErr m1 → rs 1 = HttpOutcome.netErr m2 →
        rs 2 = HttpOutcome.netErr m3 →
        fetchPageWithRetry rs = (Except.error m3, [1, 2])) ∧
    (∀ c1 c2 c3 ra1 ra2 ra3 b1 b2 b3,
        rs 0 = HttpOutcome.resp c1 ra1 b1 → rs 1 = HttpOutcome.resp c2 ra2 b2 →
        rs 2 = HttpOutcome.resp c3 ra3 b3 →
        c1 ≠ 429 → ¬ (200 ≤ c1 ∧ c1 < 300) →
        c2 ≠ 429 → ¬ (200 ≤ c2 ∧ c2 < 300) →
        c3 ≠ 429 → ¬ (200 ≤ c3 ∧ c3 < 300) →
        fetchPageWithRetry rs =
          (Except.error ("HTTP " ++ toString c3), [1, 2])) ∧
    (∀ c1 ra1 b1 code ra body,
        rs 0 = HttpOutcome.resp c1 ra1 b1 →
        c1 ≠ 429 → ¬ (200 ≤ c1 ∧ c1 < 300) →
        rs 1 = HttpOutcome.resp code ra body → 200 ≤ code → code < 300 →
        fetchPageWithRetry rs = (Except.ok body, [1])) ∧
    (∀ ra b rab pd, rs 0 = HttpOutcome.resp 429 ra b →
        rs 1 = HttpOutcome.resp 200 rab (some pd) →
        fetchPageWithRetry rs = (Except.ok (some pd), [((ra.getD 60 : Nat) : Int)])) := by
  refine ⟨?_, ?_, ?_, ?_, ?_, ?_, ?_⟩
  · intro rs' h0 h1 h2
    simp only [fetchPageWithRetry, fetchAttempts]
    rw [h0, h1, h2]
  · intro code ra body h0 h200 h300
    have h429 : ¬ code = 429 := by omega
    simp [fetchPageWithRetry, fetchAttempts, h0, h429, h200, h300]
  · intro ra1 ra2 ra3 b1 b2 b3 h0 h1 h2
    simp [fetchPageWithRetry, fetchAttempts, h0, h1, h2]
  · intro m1 m2 m3 h0 h1 h2
    simp [fetchPageWithRetry, fetchAttempts, h0, h1, h2]
  · intro c1 c2 c3 ra1 ra2 ra3 b1 b2 b3 h0 h1 h2 hn1 hs1 hn2 hs2 hn3 hs3
    simp [fetchPageWithRetry, fetchAttempts, h0, h1, h2, hn1, hs1, hn2, hs2,
      hn3, hs3]
  · intro c1 ra1 b1 code ra body h0 hn1 hs1 h1 h200 h300
    have h429 : ¬ code = 429 := by omega
    simp [fetchPageWithRetry, fetchAttempts, h0, h1, hn1, hs1, h429, h200, h300]
  · intro ra b rab pd h0 h1
    simp [fetchPageWithRetry, fetchAttempts, h0, h1]

/-- Witness for `fetch_retry_amended`: a 429 without a `Retry-After`
header followed by a success sleeps the default 60 s and returns the
second response's body; three HTTP 500s back off 1 s then 2 s and
propagate the final failure. -/
theorem fetch_retry_amended_witness :
    fetchPageWithRetry (fun n =>
      if n = 0 then HttpOutcome.resp 429 none none
      else HttpOutcome.resp 200 none (some { tickets := [], total_pages := some 1 })) =
    (Except.ok (some { tickets := [], total_pages := some 1 }), [60]) ∧
    fetchPageWithRetry (fun _ => HttpOutcome.resp 500 none none) =
    (Except.error "HTTP 500", [1, 2]) :=
  ⟨(fetch_retry_amended _).2.2.2.2.2.2 none none none _ rfl rfl,
   (fetch_retry_amended _).2.2.2.2.1 500 500 500 none none none none none none
     rfl rfl rfl (by decide) (by decide) (by decide) (by decide) (by decide)
     (by decide)⟩

/- ## C7 -/

/-- Helper: `find?` after `updateFirst` with the same predicate, when
the replacement keeps the predicate. -/
lemma find?_updateFirst {α : Type} (p : α → Bool) (f : α → α)
    (hf : ∀ a, p a = true → p (f a) = true) :
    ∀ (l : List α) (x : α), l.find? p = some x →
      (updateFirst p f l).find? p = some (f x) := by
  intro l
  induction l with
  | nil => intro x h; simp [List.find?] at h
  | cons a t ih =>
      intro x h
      by_cases hpa : p a = true
      · rw [List.find?_cons_of_pos _ hpa] at h
        injection h with h
        subst h
        simp [updateFirst, hpa, List.find?_cons_of_pos _ (hf a hpa)]
      · have hpa' : p a = false := by
          cases hval : p a
          · rfl
          · exact absurd hval hpa
        rw [List.find?_cons_of_neg _ (by simp [hpa'])] at h
        simp [updateFirst, hpa', List.find?_cons_of_neg, ih x h]

/-- C7 (counterexample): the claim says `refresh_lock` returns true iff
a `{resource_id, owner_id}` document exists.  Here such a document
exists (second conjunct) but its `expires_at` already equals
`now + TTL`, so Mongo's `$set` modifies nothing, `modified_count` is 0,
and the call returns false. -/
theorem refresh_lock_matched_but_false :
    (refreshLock [{ resource_id := "r", owner_id := "o",
                    acquired_at := 40, expires_at := 100 }] "r" "o" 40).1 = false ∧
    ([{ resource_id := "r", owner_id := "o", acquired_at := 40, expires_at := 100 }] :
        List LockDoc).find? (fun l => l.resource_id == "r" && l.owner_id == "o") ≠
      none := by
  decide

/-- C7 (amended): `refresh_lock` returns `modified_count > 0`, i.e. true
iff a `{resource_id, owner_id}` lock document exists *and* its stored
`expires_at` differs from `now + 60`; when a matching document exists
its `expires_at` is set to `now + 60`; when none exists the call returns
false and leaves the collection unchanged. -/
theorem refresh_lock_modified_iff (locks : List LockDoc) (rid oid : String)
    (now : Int) :
    ((refreshLock locks rid oid now).1 = true ↔
      ∃ l, locks.find? (fun l => l.resource_id == rid && l.owner_id == oid) = some l ∧
        l.expires_at ≠ now + LOCK_TTL_SECONDS) ∧
    (∀ l, locks.find? (fun l => l.resource_id == rid && l.owner_id == oid) = some l →
      ((refreshLock locks rid oid now).2).find?
          (fun l => l.resource_id == rid && l.owner_id == oid) =
        some { l with expires_at := now + LOCK_TTL_SECONDS }) ∧
    (locks.find? (fun l => l.resource_id == rid && l.owner_id == oid) = none →
      refreshLock locks rid oid now = (false, locks)) := by
  refine ⟨?_, ?_, ?_⟩
  · cases hf : locks.find? (fun l => l.resource_id == rid && l.owner_id == oid) with
    | none => simp [refreshLock, hf]
    | some l => simp [refreshLock, hf]
  · intro l hf
    have hkeep : ∀ a : LockDoc,
        (a.resource_id == rid && a.owner_id == oid) = true →
        (({ a with expires_at := now + LOCK_TTL_SECONDS } : LockDoc).resource_id == rid &&
         ({ a with expires_at := now + LOCK_TTL_SECONDS } : LockDoc).owner_id == oid) = true := by
      intro a ha; simpa using ha
    have := find?_updateFirst _ _ hkeep locks l hf
    simp [refreshLock, hf, this]
  · intro hf
    simp [refreshLock, hf]

/-- A held, soon-expiring lock used by the refresh witness. -/
def lockR10 : LockDoc :=
  { resource_id := "r", owner_id := "o", acquired_at := 0, expires_at := 10 }

/-- Witness for `refresh_lock_modified_iff`: refreshing a held lock
whose lease is not already `now + 60` succeeds and stamps the new
expiry. -/
theorem refresh_lock_modified_iff_witness :
    (refreshLock [lockR10] "r" "o" 0).1 = true ∧
    ((refreshLock [lockR10] "r" "o" 0).2).find?
        (fun l => l.resource_id == "r" && l.owner_id == "o") =
      some { resource_id := "r", owner_id := "o", acquired_at := 0, expires_at := 60 } :=
  ⟨((refresh_lock_modified_iff [lockR10] "r" "o" 0).1).mpr
      ⟨lockR10, by decide, by decide⟩,
   (refresh_lock_modified_iff [lockR10] "r" "o" 0).2.1 lockR10 (by decide)⟩

/- ## C8 -/

/-- C8 (counterexample): the claim says a timestamp is recorded iff the
returned wait is 0.  With a full window whose oldest entry is exactly
60 s old nothing is evicted (`now − t > 60` is false), the queue stays
at 60 entries, the computed wait is `60 − 60 = 0` — returned without
appending: wait 0, nothing recorded. -/
theorem rate_limiter_wait_zero_without_record :
    (rlAcquire (List.replicate 60 0) 60).1 = 0 ∧
    (rlAcquire (List.replicate 60 0) 60).2 = List.replicate 60 0 ∧
    ¬ (60 : Int) ∈ (rlAcquire (List.replicate 60 0) 60).2 := by
  decide

/-- C8 (amended): `acquire` first evicts timestamps strictly older than
`now − 60`; if fewer than 60 remain it appends `now` and returns 0,
otherwise it returns `60 − (now − oldest)` without appending (so a
timestamp is recorded iff fewer than 60 survive eviction — recording
implies a zero wait, but a zero wait can also be returned with a full
window); the queue never grows beyond 60 entries. -/
theorem rate_limiter_acquire_spec (q : List Int) (now : Int) :
    ((rlEvict q now).length < rl_requests_per_minute →
        rlAcquire q now = (0, rlEvict q now ++ [now])) ∧
    (¬ (rlEvict q now).length < rl_requests_per_minute →
        (rlAcquire q now).2 = rlEvict q now ∧
        ∀ oldest rest, rlEvict q now = oldest :: rest →
          (rlAcquire q now).1 = rl_window_seconds - (now - oldest)) ∧
    (q.length ≤ rl_requests_per_minute →
        ((rlAcquire q now).2).length ≤ rl_requests_per_minute) := by
  refine ⟨?_, ?_, ?_⟩
  · intro h
    simp [rlAcquire, h]
  · intro h
    cases he : rlEvict q now with
    | nil =>
        exfalso
        apply h
        rw [he]
        decide
    | cons oldest rest =>
        have hlen : ¬ (oldest :: rest).length < rl_requests_per_minute := he ▸ h
        have hp : (now - oldest > rl_window_seconds) = False := by
          have := List.head?_dropWhile_not
            (fun t => decide (now - t > rl_window_seconds)) q
          rw [show q.dropWhile (fun t => decide (now - t > rl_window_seconds)) =
                oldest :: rest from he] at this
          simpa using this
        have hle : now - oldest ≤ rl_window_seconds := by
          have := hp
          simp at this
          omega
        have hmax : max 0 (rl_window_seconds - (now - oldest)) =
            rl_window_seconds - (now - oldest) := by omega
        refine ⟨?_, ?_⟩
        · simp only [rlAcquire, he, if_neg hlen]
        · intro o r hor
          injection hor with h2a h2b
          rw [← h2a]
          simp only [rlAcquire, he, if_neg hlen, hmax]
  · intro hq
    have hev : (rlEvict q now).length ≤ q.length :=
      (List.dropWhile_sublist (l := q)
        (p := fun t => decide (now - t > rl_window_seconds))).length_le
    by_cases h : (rlEvict q now).length < rl_requests_per_minute
    · simp only [rlAcquire, if_pos h, List.length_append, List.length_cons,
        List.length_nil]
      omega
    · cases he : rlEvict q now with
      | nil =>
          exfalso
          apply h
          rw [he]
          decide
      | cons oldest rest =>
          have hlen : ¬ (oldest :: rest).length < rl_requests_per_minute := he ▸ h
          rw [he] at hev
          simp only [rlAcquire, he, if_neg hlen]
          omega

/-- Witness for `rate_limiter_acquire_spec`: an empty window admits the
request at once and records the timestamp. -/
theorem rate_limiter_acquire_spec_witness :
    rlAcquire [] 5 = (0, [5]) :=
  (rate_limiter_acquire_spec [] 5).1 (by decide)

/- ## C10 -/

/-- Helper: folding the history append over the id list appends one
record per list element. -/
lemma foldl_recordHistory (tenant_id : String) (now : Int) :
    ∀ (ids : List String) (history : List HistoryRec),
      ids.foldl (fun h external_id =>
        recordHistory h external_id tenant_id "deleted" none now) history =
      history ++ ids.map (fun i =>
        { ticket_id := i, tenant_id := tenant_id, action := "deleted",
          changes := [], recorded_at := now }) := by
  intro ids
  induction ids with
  | nil => intro history; simp
  | cons a t ih =>
      intro history
      rw [List.foldl_cons, ih]
      simp [recordHistory]

/-- C10: `mark_deleted` on a non-empty id list appends exactly one
"deleted" history record per element of the list — whether or not the
id matched a ticket — while the returned count is the number of
documents the conditional `update_many` actually modified (tenant match,
id in the list, `deleted_at` absent), so the records written can exceed
the count: with an id that matches no ticket, one record is written and
0 is returned.  An empty list returns 0 and writes nothing. -/
theorem mark_deleted_history_per_id (tickets : List TicketDoc)
    (history : List HistoryRec) (tenant_id : String) (ids : List String)
    (now : Int) :
    (ids = [] → markDeleted tickets history tenant_id ids now = (0, tickets, history)) ∧
    (ids ≠ [] →
      (markDeleted tickets history tenant_id ids now).2.2 =
        history ++ ids.map (fun i =>
          { ticket_id := i, tenant_id := tenant_id, action := "deleted",
            changes := [], recorded_at := now }) ∧
      (markDeleted tickets history tenant_id ids now).1 =
        (tickets.filter (fun d => d.tenant_id == tenant_id &&
          ids.contains d.external_id && d.deleted_at == none)).length) ∧
    (markDeleted [] [] "T" ["x"] 0).1 = 0 ∧
    ((markDeleted [] [] "T" ["x"] 0).2.2).length = 1 := by
  refine ⟨?_, ?_, by decide, by decide⟩
  · intro h
    simp [markDeleted, h]
  · intro h
    refine ⟨?_, ?_⟩
    · simp [markDeleted, h, foldl_recordHistory]
    · simp [markDeleted, h]

/-- Witness for `mark_deleted_history_per_id`: one unmatched id writes
its history record while modifying nothing. -/
theorem mark_deleted_history_per_id_witness :
    (markDeleted [] [] "T2" ["y"] 3).2.2 =
      [{ ticket_id := "y", tenant_id := "T2", action := "deleted",
         changes := [], recorded_at := 3 }] ∧
    (markDeleted [] [] "T2" ["y"] 3).1 = 0 :=
  ⟨((mark_deleted_history_per_id [] [] "T2" ["y"] 3).2.1 (by decide)).1,
   ((mark_deleted_history_per_id [] [] "T2" ["y"] 3).2.1 (by decide)).2⟩

/- ## C5 -/

/-- C5: `classify` returns urgency "high" iff some high-set keyword is a
substring of the lowercased "subject message" concatenation, else
"medium" iff some medium keyword matches, else "low"; sentiment is
"negative" iff some negative keyword matches (checked before positive),
else "positive" iff some positive keyword matches, else "neutral";
`requires_action` is true iff some action keyword matches.  Matching is
plain substring containment (the concrete conjunct's "broken" arrives
via the subject "Broken"), and subject="Broken", message="disappointed"
yields high / negative / requires_action. -/
theorem classify_keyword_spec (message subject : String) :
    ((classify message subject).urgency = "high" ↔
      ∃ kw ∈ high_urgency_keywords,
        strIn kw (pyLower (subject ++ " " ++ message)) = true) ∧
    ((classify message subject).urgency = "medium" ↔
      (¬ ∃ kw ∈ high_urgency_keywords,
          strIn kw (pyLower (subject ++ " " ++ message)) = true) ∧
      ∃ kw ∈ medium_urgency_keywords,
        strIn kw (pyLower (subject ++ " " ++ message)) = true) ∧
    ((classify message subject).urgency = "low" ↔
      (¬ ∃ kw ∈ high_urgency_keywords,
          strIn kw (pyLower (subject ++ " " ++ message)) = true) ∧
      ¬ ∃ kw ∈ medium_urgency_keywords,
          strIn kw (pyLower (subject ++ " " ++ message)) = true) ∧
    ((classify message subject).sentiment = "negative" ↔
      ∃ kw ∈ negative_keywords,
        strIn kw (pyLower (subject ++ " " ++ message)) = true) ∧
    ((classify message subject).sentiment = "positive" ↔
      (¬ ∃ kw ∈ negative_keywords,
          strIn kw (pyLower (subject ++ " " ++ message)) = true) ∧
      ∃ kw ∈ positive_keywords,
        strIn kw (pyLower (subject ++ " " ++ message)) = true) ∧
    ((classify message subject).sentiment = "neutral" ↔
      (¬ ∃ kw ∈ negative_keywords,
          strIn kw (pyLower (subject ++ " " ++ message)) = true) ∧
      ¬ ∃ kw ∈ positive_keywords,
          strIn kw (pyLower (subject ++ " " ++ message)) = true) ∧
    ((classify message subject).requires_action = true ↔
      ∃ kw ∈ action_required_keywords,
        strIn kw (pyLower (subject ++ " " ++ message)) = true) ∧
    classify "disappointed" "Broken" =
      { urgency := "high", sentiment := "negative", requires_action := true } := by
  have notEx : ∀ l : List String,
      l.any (fun kw => strIn kw (pyLower (subject ++ " " ++ message))) = false →
      ¬ ∃ kw ∈ l, strIn kw (pyLower (subject ++ " " ++ message)) = true :=
    fun l hl hex => absurd (List.any_eq_true.mpr hex) (by simp [hl])
  have hu : (classify message subject).urgency =
      (if high_urgency_keywords.any
            (fun kw => strIn kw (pyLower (subject ++ " " ++ message))) then "high"
       else if medium_urgency_keywords.any
            (fun kw => strIn kw (pyLower (subject ++ " " ++ message))) then "medium"
       else "low") := rfl
  have hs : (classify message subject).sentiment =
      (if negative_keywords.any
            (fun kw => strIn kw (pyLower (subject ++ " " ++ message))) then "negative"
       else if positive_keywords.any
            (fun kw => strIn kw (pyLower (subject ++ " " ++ message))) then "positive"
       else "neutral") := rfl
  have ha : (classify message subject).requires_action =
      action_required_keywords.any
        (fun kw => strIn kw (pyLower (subject ++ " " ++ message))) := rfl
  refine ⟨?_, ?_, ?_, ?_, ?_, ?_, ?_, by decide⟩
  · rw [hu]
    cases hH : high_urgency_keywords.any
        (fun kw => strIn kw (pyLower (subject ++ " " ++ message))) with
    | true => exact iff_of_true (by simp) (List.any_eq_true.mp hH)
    | false =>
        cases hM : medium_urgency_keywords.any
            (fun kw => strIn kw (pyLower (subject ++ " " ++ message))) with
        | true => exact iff_of_false (by decide) (notEx _ hH)
        | false => exact iff_of_false (by decide) (notEx _ hH)
  · rw [hu]
    cases hH : high_urgency_keywords.any
        (fun kw => strIn kw (pyLower (subject ++ " " ++ message))) with
    | true =>
        exact iff_of_false (by simp) (fun hc => hc.1 (List.any_eq_true.mp hH))
    | false =>
        cases hM : medium_urgency_keywords.any
            (fun kw => strIn kw (pyLower (subject ++ " " ++ message))) with
        | true =>
            exact iff_of_true (by decide) ⟨notEx _ hH, List.any_eq_true.mp hM⟩
        | false =>
            exact iff_of_false (by decide) (fun hc => notEx _ hM hc.2)
  · rw [hu]
    cases hH : high_urgency_keywords.any
        (fun kw => strIn kw (pyLower (subject ++ " " ++ message))) with
    | true =>
        exact iff_of_false (by simp) (fun hc => hc.1 (List.any_eq_true.mp hH))
    | false =>
        cases hM : medium_urgency_keywords.any
            (fun kw => strIn kw (pyLower (subject ++ " " ++ message))) with
        | true =>
            exact iff_of_false (by decide) (fun hc => hc.2 (List.any_eq_true.mp hM))
        | false =>
            exact iff_of_true (by decide) ⟨notEx _ hH, notEx _ hM⟩
  · rw [hs]
    cases hN : negative_keywords.any
        (fun kw => strIn kw (pyLower (subject ++ " " ++ message))) with
    | true => exact iff_of_true (by simp) (List.any_eq_true.mp hN)
    | false =>
        cases hP : positive_keywords.any
            (fun kw => strIn kw (pyLower (subject ++ " " ++ message))) with
        | true => exact iff_of_false (by decide) (notEx _ hN)
        | false => exact iff_of_false (by decide) (notEx _ hN)
  · rw [hs]
    cases hN : negative_keywords.any
        (fun kw => strIn kw (pyLower (subject ++ " " ++ message))) with
    | true =>
        exact iff_of_false (by simp) (fun hc => hc.1 (List.any_eq_true.mp hN))
    | false =>
        cases hP : positive_keywords.any
            (fun kw => strIn kw (pyLower (subject ++ " " ++ message))) with
        | true =>
            exact iff_of_true (by decide) ⟨notEx _ hN, List.any_eq_true.mp hP⟩
        | false =>
            exact iff_of_false (by decide) (fun hc => notEx _ hP hc.2)
  · rw [hs]
    cases hN : negative_keywords.any
        (fun kw => strIn kw (pyLower (subject ++ " " ++ message))) with
    | true =>
        exact iff_of_false (by simp) (fun hc => hc.1 (List.any_eq_true.mp hN))
    | false =>
        cases hP : positive_keywords.any
            (fun kw => strIn kw (pyLower (subject ++ " " ++ message))) with
        | true =>
            exact iff_of_false (by decide) (fun hc => hc.2 (List.any_eq_true.mp hP))
        | false =>
            exact iff_of_true (by decide) ⟨notEx _ hN, notEx _ hP⟩
  · rw [ha]
    exact List.any_eq_true

/- ## C6 -/

/-- C6: `sync_ticket` returns "created" with an empty change list and
writes no history when no `(tenant_id, external_id)` ticket exists; and
when both sides carry `updated_at` and, after the awareness coercion,
the external timestamp is `<=` the stored one, it returns "unchanged"
with an empty change list and writes no history. -/
theorem sync_ticket_created_and_unchanged (tickets : List TicketDoc)
    (history : List HistoryRec) (ext : ExtTicket) (tenant_id : String)
    (now : Int) :
    (findTicket tickets tenant_id ext.id = none →
      syncTicket tickets history ext tenant_id now =
        (Except.ok { action := "created", ticket_id := ext.id, changes := [] },
         history)) ∧
    (∀ d tExt tExi, findTicket tickets tenant_id ext.id = some d →
      ext.updated_at = DateField.valid tExt →
      d.updated_at = some tExi →
      ((syncCoerce tExt tExi).1.pyLe (syncCoerce tExt tExi).2) = true →
      syncTicket tickets history ext tenant_id now =
        (Except.ok { action := "unchanged", ticket_id := ext.id, changes := [] },
         history)) := by
  constructor
  · intro h
    simp [syncTicket, h]
  · intro d tExt tExi hf hext hexi hle
    simp [syncTicket, hf, hext, hexi, hle]

/-- A stored ticket used by the sync witness: naive `updated_at` at
wall-clock 5. -/
def ticketD5 : TicketDoc :=
  { external_id := "x", tenant_id := "T", source := "s", customer_id := "c",
    subject := "subj", message := "msg", created_at := some { wall := 0, tz := none },
    updated_at := some { wall := 5, tz := none }, status := "open",
    urgency := "low", sentiment := "neutral", requires_action := false,
    deleted_at := none }

/-- An external payload for the same ticket whose aware `updated_at`
coerces to an equal instant, so the sync is a no-op. -/
def extX5 : ExtTicket :=
  { id := "x", source := some "s", customer_id := some "c",
    subject := some "changed subject", message := some "msg",
    status := some "open", created_at := DateField.absent,
    updated_at := DateField.valid { wall := 5, tz := some 0 } }

/-- Witness for `sync_ticket_created_and_unchanged`: an absent ticket
yields "created" with no history write, and an equal-instant
`updated_at` yields "unchanged" with no history write even though the
subject differs. -/
theorem sync_ticket_created_and_unchanged_witness :
    syncTicket [] [] extX5 "T" 9 =
      (Except.ok { action := "created", ticket_id := "x", changes := [] }, []) ∧
    syncTicket [ticketD5] [] extX5 "T" 9 =
      (Except.ok { action := "unchanged", ticket_id := "x", changes := [] }, []) :=
  ⟨(sync_ticket_created_and_unchanged [] [] extX5 "T" 9).1 (by decide),
   (sync_ticket_created_and_unchanged [ticketD5] [] extX5 "T" 9).2
     ticketD5 { wall := 5, tz := some 0 } { wall := 5, tz := none }
     (by decide) (by decide) (by decide) (by decide)⟩

/- ## C9 -/

/-- Helper: rounding an exact zero ratio gives zero. -/
lemma pyRound3_zero : pyRound3 0 = 0 := by
  norm_num [pyRound3]

/-- C9: when no non-deleted ticket of the tenant has `created_at` in the
requested range, `get_tenant_stats` returns exactly the all-empty
result; both ratios are always the 3-decimal rounding of the raw facet
ratios; and whenever the total is 0 both ratios are 0. -/
theorem tenant_stats_empty_and_rounding (tickets : List TicketDoc)
    (tenant_id : String) (from_date to_date : Timestamp) (now : Int) :
    (statsDocs tickets tenant_id from_date to_date = [] →
      getTenantStats tickets tenant_id from_date to_date now = emptyStats) ∧
    (getTenantStats tickets tenant_id from_date to_date now).urgency_high_ratio =
      pyRound3 (urgencyHighRatioRaw tickets tenant_id from_date to_date) ∧
    (getTenantStats tickets tenant_id from_date to_date now).negative_sentiment_ratio =
      pyRound3 (negativeSentimentRatioRaw tickets tenant_id from_date to_date) ∧
    ((getTenantStats tickets tenant_id from_date to_date now).total_tickets = 0 →
      (getTenantStats tickets tenant_id from_date to_date now).urgency_high_ratio = 0 ∧
      (getTenantStats tickets tenant_id from_date to_date now).negative_sentiment_ratio = 0) := by
  refine ⟨?_, rfl, rfl, ?_⟩
  · intro h
    simp [getTenantStats, h, emptyStats, groupCounts, groupAtRisk,
      urgencyHighRatioRaw, negativeSentimentRatioRaw, pyRound3_zero]
  · intro h
    have hlen : (statsDocs tickets tenant_id from_date to_date).length = 0 := h
    constructor
    · show pyRound3 (if (statsDocs tickets tenant_id from_date to_date).length > 0
          then _ else 0) = 0
      rw [hlen]
      simpa using pyRound3_zero
    · show pyRound3 (if (statsDocs tickets tenant_id from_date to_date).length > 0
          then _ else 0) = 0
      rw [hlen]
      simpa using pyRound3_zero

/-- Witness for `tenant_stats_empty_and_rounding`: the stats of an empty
collection are the all-empty result. -/
theorem tenant_stats_empty_and_rounding_witness :
    getTenantStats [] "T0" { wall := 0, tz := none } { wall := 9, tz := none } 9 =
      emptyStats :=
  (tenant_stats_empty_and_rounding [] "T0" { wall := 0, tz := none }
    { wall := 9, tz := none } 9).1 rfl

/- ## C4 -/

/-- Some stored ticket of `(t, e)` carries `deleted_at = some v`. -/
def hasDeleted (tickets : List TicketDoc) (t e : String) (v : Timestamp) : Prop :=
  ∃ d ∈ tickets, d.tenant_id = t ∧ d.external_id = e ∧ d.deleted_at = some v

/-- Helper: `updateFirst` keeps every element, except that the
`find?`-first match may be replaced by its image. -/
lemma updateFirst_cover {α : Type} (p : α → Bool) (f : α → α) :
    ∀ (l : List α) (a : α), a ∈ l →
      a ∈ updateFirst p f l ∨ (l.find? p = some a ∧ f a ∈ updateFirst p f l) := by
  intro l
  induction l with
  | nil => intro a ha; cases ha
  | cons x xs ih =>
      intro a ha
      cases hx : p x with
      | true =>
          rcases List.mem_cons.mp ha with rfl | hmem
          · right
            exact ⟨List.find?_cons_of_pos _ hx, by simp [updateFirst, hx]⟩
          · left
            simp [updateFirst, hx, List.mem_cons, hmem]
      | false =>
          rcases List.mem_cons.mp ha with rfl | hmem
          · left
            simp [updateFirst, hx]
          · rcases ih a hmem with h | ⟨hfind, hmem'⟩
            · left
              simp [updateFirst, hx, List.mem_cons, h]
            · right
              refine ⟨?_, by simp [updateFirst, hx, List.mem_cons, hmem']⟩
              rw [List.find?_cons_of_neg _ (by simp [hx]), hfind]

/-- The coordinator's upsert never clears `deleted_at`: its `$set`
document carries no such field, so a matched document keeps its stored
value and a fresh insert starts without one. -/
lemma upsertTicket_preserves (tickets : List TicketDoc) (tenant' eid' : String)
    (doc : TicketDoc) (hdt : doc.tenant_id = tenant') (hde : doc.external_id = eid')
    (t e : String) (v : Timestamp) :
    hasDeleted tickets t e v →
    hasDeleted (upsertTicket tickets tenant' eid' doc).2 t e v := by
  rintro ⟨d, hd, hdt', hde', hdel⟩
  simp only [upsertTicket]
  cases hf : tickets.find?
      (fun x => x.tenant_id == tenant' && x.external_id == eid') with
  | none =>
      exact ⟨d, by simp [hd], hdt', hde', hdel⟩
  | some existing =>
      rcases updateFirst_cover
          (fun x => x.tenant_id == tenant' && x.external_id == eid')
          (fun _ => { doc with deleted_at := existing.deleted_at })
          tickets d hd with h | ⟨hfirst, hmem⟩
      · exact ⟨d, h, hdt', hde', hdel⟩
      · have hex : existing = d := by
          rw [hf] at hfirst
          injection hfirst
        have hp := List.find?_some hf
        simp only [Bool.and_eq_true, beq_iff_eq] at hp
        refine ⟨{ doc with deleted_at := existing.deleted_at }, hmem, ?_, ?_, ?_⟩
        · show doc.tenant_id = t
          rw [hdt, ← hp.1, hex]
          exact hdt'
        · show doc.external_id = e
          rw [hde, ← hp.2, hex]
          exact hde'
        · show existing.deleted_at = some v
          rw [hex]
          exact hdel

/-- `mark_deleted` only stamps documents whose `deleted_at` is absent;
an already-deleted document is untouched. -/
lemma markDeleted_preserves (tickets : List TicketDoc) (history : List HistoryRec)
    (tenant_id : String) (ids : List String) (now : Int)
    (t e : String) (v : Timestamp) :
    hasDeleted tickets t e v →
    hasDeleted (markDeleted tickets history tenant_id ids now).2.1 t e v := by
  rintro ⟨d, hd, hdt', hde', hdel⟩
  simp only [markDeleted]
  by_cases hids : ids = []
  · simp only [if_pos hids]
    exact ⟨d, hd, hdt', hde', hdel⟩
  · simp only [if_neg hids]
    have hfd : (if d.tenant_id == tenant_id && ids.contains d.external_id &&
        d.deleted_at == none then
          { d with deleted_at := some { wall := now, tz := none } } else d) = d := by
      simp [hdel]
    have hmem := List.mem_map_of_mem (fun x : TicketDoc =>
      if x.tenant_id == tenant_id && ids.contains x.external_id &&
          x.deleted_at == none then
        { x with deleted_at := some { wall := now, tz := none } } else x) hd
    simp only [hfd] at hmem
    exact ⟨d, hmem, hdt', hde', hdel⟩

/-- Per-ticket processing can only touch the ticket store through the
coordinator's upsert, whose `$set` document is keyed by the processed
ticket. -/
lemma processTicket_preserves (st : SysState) (tenant_id : String)
    (cnt : Counters) (tk : ExtTicket) (t e : String) (v : Timestamp) :
    hasDeleted st.tickets t e v →
    hasDeleted ((processTicket st tenant_id cnt tk).1).tickets t e v := by
  intro h
  simp only [processTicket]
  dsimp only
  split
  · exact h
  · split
    · split <;> split <;>
        exact upsertTicket_preserves st.tickets tenant_id tk.id _ rfl rfl t e v h
    · exact h

/-- The fold of per-ticket processing over a page preserves stored
deletions. -/
lemma foldTickets_preserves (tenant_id : String) (l : List ExtTicket)
    (t e : String) (v : Timestamp) :
    ∀ acc : SysState × Counters × List String,
      hasDeleted acc.1.tickets t e v →
      hasDeleted ((l.foldl
        (fun (acc : SysState × Counters × List String) tk =>
          let r := processTicket acc.1 tenant_id acc.2.1 tk
          (r.1, r.2, acc.2.2 ++ [tk.id])) acc).1).tickets t e v := by
  induction l with
  | nil => intro acc h; exact h
  | cons tk rest ih =>
      intro acc h
      rw [List.foldl_cons]
      exact ih _ (processTicket_preserves acc.1 tenant_id acc.2.1 tk t e v h)

/-- One page's processing preserves stored deletions (the job-progress
update does not touch the ticket collection). -/
lemma processPage_preserves (tenant_id : String) (job_db_id : Nat) (page : Nat)
    (page_data : PageData) (st : SysState) (cnt : Counters) (ids : List String)
    (t e : String) (v : Timestamp) :
    hasDeleted st.tickets t e v →
    hasDeleted ((processPage tenant_id job_db_id page page_data st cnt ids).1).tickets
      t e v := by
  intro h
  exact foldTickets_preserves tenant_id page_data.tickets t e v _ h

/-- The page loop preserves stored deletions. -/
lemma ingestLoop_preserves (http : Nat → Nat → HttpOutcome)
    (tenant_id job_id : String) (job_db_id : Nat) (t e : String) (v : Timestamp) :
    ∀ (fuel page : Nat) (st : SysState) (cnt : Counters) (ids : List String),
      hasDeleted st.tickets t e v →
      hasDeleted ((ingestLoop http tenant_id job_id job_db_id fuel page st cnt ids).2.1).tickets
        t e v := by
  intro fuel
  induction fuel with
  | zero => intro page st cnt ids h; exact h
  | succ n ih =>
      intro page st cnt ids h
      simp only [ingestLoop]
      split
      · exact h
      · split
        · exact h
        · exact h
        · split
          · exact processPage_preserves _ _ _ _ _ _ _ _ _ _ h
          · split
            · exact ih _ _ _ _ (processPage_preserves _ _ _ _ _ _ _ _ _ _ h)
            · exact ih _ _ _ _ (processPage_preserves _ _ _ _ _ _ _ _ _ _ h)

/-- A whole `run_ingestion` (from the job insert on) preserves stored
deletions: tickets are only written by the upsert and by
`mark_deleted`. -/
lemma runIngestionBody_preserves (http : Nat → Nat → HttpOutcome) (fuel : Nat)
    (tenant_id job_id : String) (st : SysState) (t e : String) (v : Timestamp) :
    hasDeleted st.tickets t e v →
    hasDeleted ((runIngestionBody http fuel tenant_id job_id st).2).tickets t e v := by
  intro h
  simp only [runIngestionBody]
  split
  · exact ingestLoop_preserves _ _ _ _ _ _ _ _ _ _ _ _ h
  · split
    · exact markDeleted_preserves _ _ _ _ _ _ _ _
        (ingestLoop_preserves _ _ _ _ _ _ _ _ _ _ _ _ h)
    · exact ingestLoop_preserves _ _ _ _ _ _ _ _ _ _ _ _ h

/-- `run_ingestion` preserves stored deletions in all its branches. -/
lemma runIngestion_preserves (http : Nat → Nat → HttpOutcome) (fuel : Nat)
    (tenant_id job_id : String) (st : SysState) (t e : String) (v : Timestamp) :
    hasDeleted st.tickets t e v →
    hasDeleted ((runIngestion http fuel tenant_id job_id st).2).tickets t e v := by
  intro h
  simp only [runIngestion]
  split
  · exact runIngestionBody_preserves _ _ _ _ _ _ _ _ h
  · split
    · exact h
    · exact runIngestionBody_preserves _ _ _ _ _ _ _ _ h

/-- The ingestion-facing operations that write the ticket store: a whole
`run_ingestion` call, a `sync_ticket` call, and a `mark_deleted` call. -/
inductive StoreOp where
  | ingest (http : Nat → Nat → HttpOutcome) (fuel : Nat) (tenant_id job_id : String)
  | sync (ext : ExtTicket) (tenant_id : String)
  | markDel (tenant_id : String) (ids : List String)

/-- Apply one operation to the system state. -/
def applyOp (st : SysState) : StoreOp → SysState
  | .ingest http fuel tenant_id job_id => (runIngestion http fuel tenant_id job_id st).2
  | .sync ext tenant_id =>
      { st with history := (syncTicket st.tickets st.history ext tenant_id st.now).2 }
  | .markDel tenant_id ids =>
      let m := markDeleted st.tickets st.history tenant_id ids st.now
      { st with tickets := m.2.1, history := m.2.2 }

def applyOps (st : SysState) (ops : List StoreOp) : SysState :=
  ops.foldl applyOp st

/-- C4: soft-delete monotonicity.  `sync_ticket` writes no ticket
documents, the coordinator's upsert `$set` document never contains
`deleted_at`, and `mark_deleted` only stamps documents where it is
absent; hence once `deleted_at` is set on a `(tenant_id, external_id)`,
it keeps its value under any sequence of `run_ingestion` / `sync_ticket`
/ `mark_deleted` operations. -/
theorem deleted_at_monotonic (st : SysState) (ops : List StoreOp)
    (t e : String) (v : Timestamp)
    (h : hasDeleted st.tickets t e v) :
    hasDeleted (applyOps st ops).tickets t e v := by
  induction ops generalizing st with
  | nil => exact h
  | cons op rest ih =>
      refine ih (applyOp st op) ?_
      cases op with
      | ingest http fuel tenant_id job_id =>
          exact runIngestion_preserves _ _ _ _ _ _ _ _ h
      | sync ext tenant_id => exact h
      | markDel tenant_id ids =>
          exact markDeleted_preserves _ _ _ _ _ _ _ _ h

/-- A soft-deleted ticket of tenant `T`. -/
def deletedTicketX : TicketDoc :=
  { external_id := "x", tenant_id := "T", source := "s", customer_id := "c",
    subject := "subj", message := "msg", created_at := some { wall := 0, tz := none },
    updated_at := some { wall := 0, tz := none }, status := "open",
    urgency := "low", sentiment := "neutral", requires_action := false,
    deleted_at := some { wall := 1, tz := none } }

/-- Witness for `deleted_at_monotonic`: after a `mark_deleted`, a full
ingestion run that re-observes the id, and a sync, the stored
`deleted_at` stamp survives. -/
theorem deleted_at_monotonic_witness :
    hasDeleted (applyOps
      { now := 50, tickets := [deletedTicketX], jobs := [], logs := [], locks := [],
        history := [], flags := [], notifications := [], nextJobDbId := 0 }
      [StoreOp.markDel "T" ["x"], StoreOp.ingest httpOnePage 3 "T" "J9",
       StoreOp.sync extX5 "T"]).tickets
      "T" "x" { wall := 1, tz := none } :=
  deleted_at_monotonic _ _ "T" "x" { wall := 1, tz := none }
    ⟨deletedTicketX, by simp, rfl, rfl, rfl⟩
